import Mathlib

/-!
Verification of the SMTP pipeline repository: a shallow embedding of the
job data model, the retry engine (`retry-handler/retry.py`), the delivery
worker (`worker/worker.py`), the admission gateway (`gateway-api/gateway.py`),
the unsubscribe filter (`unsubscribe-processor/unsubscribe.py`) and the IP
reputation monitor (`ip-reputation/check_spamhaus_notify.py`), together with
theorems settling the spec claims.

Modelling conventions: JSON job payloads are association lists over a small
value universe (strings, integers, lists of strings — the shapes this system
writes); `json.loads` is modelled as an `Option Job` (none = decode failure);
Redis effects that matter to the claims (queue pushes, set updates, counter
values, TTL-setting) are explicit data; metric counters and log lines are
identified by the outcome constructors and not modelled further.
-/

namespace SMTP

/-- JSON-ish values as they occur in this system's job payloads. -/
inductive Val where
  | str (s : String)
  | num (n : Int)
  | listStr (l : List String)
deriving DecidableEq, Repr

/-- A job payload: a JSON object modelled as an association list with
first-match lookup (Python dict keys are unique, so this is observably the
same map). -/
abbrev Job := List (String × Val)

/-- Dictionary lookup, first match wins. -/
def lookupField (data : Job) (k : String) : Option Val :=
  match data with
  | [] => none
  | (k', v) :: rest => if k' = k then some v else lookupField rest k

/-- Python `field in data`. -/
def hasField (data : Job) (k : String) : Bool :=
  (lookupField data k).isSome

/-- Python `data[k] = v`: replace the binding in place (first occurrence),
append if absent. -/
def setField (data : Job) (k : String) (v : Val) : Job :=
  match data with
  | [] => [(k, v)]
  | (k', v') :: rest => if k' = k then (k, v) :: rest else (k', v') :: setField rest k v

/-- Python `data.get("retries", 0)` as used before arithmetic: an absent
field reads as 0; a non-numeric value would make the subsequent `+ 1` or
`<` raise `TypeError`, modelled as `none`. -/
def getRetries (data : Job) : Option Int :=
  match lookupField data "retries" with
  | none => some 0
  | some (Val.num n) => some n
  | some _ => none

/-! ### Queue names (defaults from `getenv` in each stage) -/

/-- Worker `JOB_QUEUE` default: the queue the delivery engine pops from. -/
def worker_job_queue : String := "email_jobs"

/-- Worker `DELIVERED_QUEUE` default. -/
def delivered_queue : String := "delivered"

/-- Worker and retry handler `FAILED_QUEUE` default. -/
def failed_queue : String := "failed_jobs"

/-- Worker `BOUNCED_QUEUE` default, also the unsubscribe processor's
complaint queue default. -/
def bounced_queue : String := "bounced"

/-- Unsubscribe processor `JOB_QUEUE` default: the queue the filter pops
from. -/
def unsub_job_queue : String := "email_jobs"

/-- Unsubscribe processor `FILTERED_QUEUE` default: the queue the filter
forwards surviving jobs to. -/
def filtered_queue : String := "filtered_jobs"

/-- Retry handler `RETRY_QUEUE` default: where retried jobs are re-queued. -/
def retry_queue : String := "email_jobs"

/-- Retry handler `DEAD_LETTER_QUEUE` default. -/
def dead_letter_queue : String := "permanent_failed"

/-- Gateway `JOB_QUEUE` default: where admitted jobs are enqueued. -/
def gateway_job_queue : String := "email_jobs"

/-! ### Retry engine (`retry-handler/retry.py`) -/

namespace Retry

/-- `validate_job` from retry.py: all of job_id, recipient, sender present. -/
def validate_job (data : Job) : Bool :=
  ["job_id", "recipient", "sender"].all (fun f => hasField data f)

/-- `calculate_backoff` from retry.py: `min(base_delay * 2 ** retry_count,
max_delay)`. The exponent is the integer read from the payload. -/
def calculate_backoff (retry_count : Int) (base_delay max_delay : ℚ) : ℚ :=
  min (base_delay * (2 : ℚ) ^ retry_count) max_delay

/-- Observable outcome of one iteration of retry.py's consume loop on a
popped payload. Constructors correspond to the loop's branches and the
metric each increments: `jsonErrorDrop` = `retry_metrics:json_errors`
(payload dropped, forwarded nowhere), `deadLetterInvalid` =
`retry_metrics:invalid_jobs` plus a push of the unmodified payload to the
dead-letter queue, `retryAfter` = sleep for the backoff delay then push of
the updated job to the retry queue (`retry_metrics:retries`), `deadLetter` =
push to the dead-letter queue (`retry_metrics:permanent_failures`),
`unexpectedError` = the generic exception handler
(`retry_metrics:unexpected_errors`, nothing pushed). -/
inductive RetryAction where
  | jsonErrorDrop
  | deadLetterInvalid (raw : Job)
  | retryAfter (delay : ℚ) (updated : Job)
  | deadLetter (data : Job)
  | unexpectedError
deriving DecidableEq, Repr

/-- One iteration of retry.py's consume loop, given the result of
`json.loads` on the popped payload (`none` = `JSONDecodeError`). -/
def retryStep (max_retries : Int) (base_delay max_delay : ℚ)
    (parsed : Option Job) : RetryAction :=
  match parsed with
  | none => .jsonErrorDrop
  | some data =>
    if !validate_job data then
      .deadLetterInvalid data
    else
      match getRetries data with
      | none => .unexpectedError
      | some retries =>
        if retries < max_retries then
          .retryAfter (calculate_backoff retries base_delay max_delay)
            (setField data "retries" (Val.num (retries + 1)))
        else
          .deadLetter data

end Retry

end SMTP

namespace SMTP

open Retry

/-- C9: The backoff function equals `min(base_delay * 2 ^ n, max_delay)` for
every non-negative retry count n, is monotonically non-decreasing in n for a
non-negative base delay, is capped at max_delay, and with the defaults
base 2 / max 60 the successive delays for n = 0..7 are
2, 4, 8, 16, 32, 60, 60, 60. -/
theorem C9_backoff (b M : ℚ) (n m : Nat) (hb : 0 ≤ b) (hnm : n ≤ m) :
    calculate_backoff n b M = min (b * 2 ^ n) M
    ∧ calculate_backoff n b M ≤ calculate_backoff m b M
    ∧ calculate_backoff n b M ≤ M
    ∧ (List.range 8).map (fun k => calculate_backoff k 2 60)
        = [2, 4, 8, 16, 32, 60, 60, 60] := by
  refine ⟨?_, ?_, ?_, ?_⟩
  · simp [calculate_backoff, zpow_natCast]
  · apply min_le_min _ le_rfl
    apply mul_le_mul_of_nonneg_left _ hb
    have h2 : (1 : ℚ) ≤ 2 := by norm_num
    exact zpow_le_zpow_right₀ h2 (by exact_mod_cast hnm)
  · exact min_le_right _ _
  · simp only [List.range_succ, List.range_zero, List.map_append, List.map_cons,
      List.map_nil, List.nil_append, List.cons_append]
    norm_num [calculate_backoff, min_def]

/-- C9 witness: instantiation at b = 2, M = 60, n = 1, m = 5. -/
theorem C9_backoff_witness :
    (0 : ℚ) ≤ 2 ∧ (1 : Nat) ≤ 5
    ∧ calculate_backoff 1 2 60 ≤ calculate_backoff 5 2 60 := by
  refine ⟨by norm_num, by norm_num, ?_⟩
  exact (C9_backoff 2 60 1 5 (by norm_num) (by norm_num)).2.1

/-- C1: For a dequeued payload that parses as JSON and carries the required
identification fields: a retries count strictly below max_retries leads to a
re-queue (`retryAfter` with the backoff delay and incremented count), never a
dead-letter; a retries count equal to max_retries leads to a dead-letter with
no delay-then-retry; and exactly the payloads missing a required field go
directly to the dead-letter queue with the payload (hence its retries count)
unmodified. -/
theorem C1_retry_dispatch (mr : Int) (b M : ℚ) (data : Job) (n : Int)
    (hv : validate_job data = true) (hr : getRetries data = some n) :
    (n < mr → retryStep mr b M (some data)
        = .retryAfter (calculate_backoff n b M)
            (setField data "retries" (Val.num (n + 1))))
    ∧ (n = mr → retryStep mr b M (some data) = .deadLetter data)
    ∧ (∀ d : Job, validate_job d = false →
        retryStep mr b M (some d) = .deadLetterInvalid d)
    ∧ (∀ d d' : Job, retryStep mr b M (some d) = .deadLetterInvalid d' →
        validate_job d = false ∧ d' = d) := by
  refine ⟨?_, ?_, ?_, ?_⟩
  · intro hlt
    simp [retryStep, hv, hr, hlt]
  · intro heq
    subst heq
    simp [retryStep, hv, hr]
  · intro d hd
    simp [retryStep, hd]
  · intro d d' h
    by_cases hvd : validate_job d = true
    · exfalso
      rcases hgr : getRetries d with _ | k
      · simp [retryStep, hvd, hgr] at h
      · by_cases hk : k < mr <;> simp [retryStep, hvd, hgr, hk] at h
    · rw [Bool.not_eq_true] at hvd
      simp [retryStep, hvd] at h
      exact ⟨hvd, h.symm⟩

/-- C1 witness: a valid payload with retries = 2 below the ceiling 3 is
re-queued with delay 8 and retries 3; an invalid payload is dead-lettered
unchanged. -/
theorem C1_retry_dispatch_witness :
    validate_job [("job_id", Val.str "j1"), ("recipient", Val.str "b@y.com"),
        ("sender", Val.str "a@x.com"), ("retries", Val.num 2)] = true
    ∧ getRetries [("job_id", Val.str "j1"), ("recipient", Val.str "b@y.com"),
        ("sender", Val.str "a@x.com"), ("retries", Val.num 2)] = some 2
    ∧ retryStep 3 2 60 (some [("job_id", Val.str "j1"),
        ("recipient", Val.str "b@y.com"), ("sender", Val.str "a@x.com"),
        ("retries", Val.num 2)])
      = .retryAfter (calculate_backoff 2 2 60)
          (setField [("job_id", Val.str "j1"), ("recipient", Val.str "b@y.com"),
            ("sender", Val.str "a@x.com"), ("retries", Val.num 2)]
            "retries" (Val.num 3)) := by
  refine ⟨by decide, by decide, ?_⟩
  exact (C1_retry_dispatch 3 2 60 _ 2 (by decide) (by decide)).1 (by decide)

end SMTP

namespace SMTP

namespace Worker

/-- One SMTP endpoint from `smtp_rotation.json` (`load_smtp_configs`):
`{id, host, port, weight?, user?, pass?}`; `weight` absent means the code
reads it as 1.0 via `config.get("weight", 1.0)`. -/
structure SmtpConfig where
  id : String
  host : String
  port : Nat
  weight : Option ℚ
  user : Option String
  pass : Option String
deriving DecidableEq, Repr

/-- `config.get("weight", 1.0)`. -/
def getWeight (c : SmtpConfig) : ℚ :=
  c.weight.getD 1

/-- The `valid_configs` list built by `select_smtp_config`: configured
endpoints whose host is not in the `blacklisted_ips` set, paired with their
weights. -/
def select_candidates (configs : List SmtpConfig) (blacklisted_ips : List String) :
    List (SmtpConfig × ℚ) :=
  (configs.filter (fun c => !blacklisted_ips.contains c.host)).map
    (fun c => (c, getWeight c))

/-- `select_smtp_config` as the distribution `random.choices` draws from:
each candidate paired with its selection probability (its weight divided by
the total candidate weight). An empty candidate list raises `ValueError`,
modelled as the error case with the raised message. -/
def select_smtp_dist (configs : List SmtpConfig) (blacklisted_ips : List String) :
    Except String (List (SmtpConfig × ℚ)) :=
  let valid := select_candidates configs blacklisted_ips
  if valid = [] then
    .error "No valid SMTP configurations available"
  else
    .ok (valid.map (fun p => (p.1, p.2 / (valid.map Prod.snd).sum)))

/-- Outcome of the SMTP transport attempt for one job, as seen by the
consume loop of worker.py: success, `smtplib.SMTPResponseException` with a
status code, or any other exception with a description. -/
inductive SmtpResult where
  | ok
  | respErr (code : Int) (msg : String)
  | otherErr (msg : String)
deriving DecidableEq, Repr

/-- External state an iteration of the worker loop observes: the blacklist
set, the value `r.incr(rate_key)` returned, and the transport outcome. -/
structure WorkerEnv where
  blacklisted_ips : List String
  rate_count : Int
  smtp : SmtpResult
deriving Repr

/-- `data["retries"] = data.get("retries", 0) + 1` as executed inside the
exception handlers: `none` when the stored value is non-numeric (the `+ 1`
would raise `TypeError` inside the handler). -/
def incRetries (data : Job) : Option Job :=
  match getRetries data with
  | some n => some (setField data "retries" (Val.num (n + 1)))
  | none => none

/-- Whether building the MIME message raises before the transport attempt:
`", ".join(...)` over `data["to"]` needs a string or list of strings, and
`MIMEText(data["body"], "plain")` needs a string body. -/
def buildRaises (data : Job) : Bool :=
  (match lookupField data "to" with
   | some (Val.str _) => false
   | some (Val.listStr _) => false
   | _ => true)
  || (match lookupField data "body" with
      | some (Val.str _) => false
      | _ => true)

/-- Required fields re-validated by the worker. -/
def workerRequiredFields : List String := ["from", "to", "subject", "body"]

/-- Result of one iteration of the worker consume loop that did not escape:
the queue pushes it performed, in order, and the value the local variable
`data` is left bound to (visible to later iterations of the same process). -/
structure WorkerIterResult where
  pushes : List (String × Job)
  dataBinding : Option Job
deriving DecidableEq, Repr

/-- The `except Exception` handler of worker.py: increments `data["retries"]`
(raising `TypeError` out of the loop if the stored value is non-numeric),
pushes the updated job to the failed queue and a copy merged with the error
description to the bounced queue. -/
def genericHandler (data : Job) (msg : String) : Except String WorkerIterResult :=
  match incRetries data with
  | none => .error "TypeError in exception handler"
  | some d' =>
    .ok ⟨[(failed_queue, d'), (bounced_queue, d' ++ [("error", Val.str msg)])], some d'⟩

/-- One iteration of worker.py's consume loop on a popped payload.
`parsed` is the result of `json.loads` (`none` = decode failure); `prevData`
is the binding of the local variable `data` left by earlier iterations
(`none` on a fresh process). A `JSONDecodeError` has no dedicated handler in
this stage, so it falls to the `except Exception` handler, whose first
statement reads `data`: on a fresh process that read raises
`UnboundLocalError`, which escapes the loop (the `.error` case). Metric
increments and the rate-key TTL are not modelled; the rate-limit comparison
and queue pushes are. -/
def workerStep (configs : List SmtpConfig) (env : WorkerEnv) (prevData : Option Job)
    (parsed : Option Job) : Except String WorkerIterResult :=
  match parsed with
  | none =>
    match prevData with
    | none => .error "UnboundLocalError: local variable data referenced before assignment"
    | some d => genericHandler d "json decode error"
  | some data =>
    if !workerRequiredFields.all (fun f => hasField data f) then
      .ok ⟨[(failed_queue, data)], some data⟩
    else if env.rate_count > 100 then
      .ok ⟨[(failed_queue, data)], some data⟩
    else
      match select_smtp_dist configs env.blacklisted_ips with
      | .error m => genericHandler data m
      | .ok _ =>
        if buildRaises data then genericHandler data "build error"
        else
          match env.smtp with
          | .ok => .ok ⟨[(delivered_queue, data)], some data⟩
          | .respErr code m =>
            match incRetries data with
            | none => .error "TypeError in exception handler"
            | some d' =>
              .ok ⟨[(failed_queue, d'),
                  (bounced_queue,
                    data ++ [("error", Val.str m), ("smtp_code", Val.num code)])],
                some d'⟩
          | .otherErr m => genericHandler data m

/-- Concrete job used to exercise the failure paths of the worker. -/
def c3_job : Job :=
  [("job_id", Val.str "j1"), ("from", Val.str "a@x.com"), ("to", Val.str "b@y.com"),
   ("subject", Val.str "hi"), ("body", Val.str "hello"), ("retries", Val.num 0)]

/-- Concrete endpoint configuration. -/
def c3_cfg : SmtpConfig := ⟨"1", "smtp1", 25, some 1, none, none⟩

/-- Environment where the transport reports a 550 response. -/
def c3_env : WorkerEnv := ⟨[], 1, .respErr 550 "mailbox unavailable"⟩

end Worker

end SMTP

namespace SMTP

open Worker

/-- C4: under the default queue configuration the worker pops the same queue
the unsubscribe filter pops (`email_jobs`), not the queue the filter forwards
surviving jobs to (`filtered_jobs`); the claim that the worker's input queue
name equals the filter's output queue name is false on the code. -/
theorem C4_default_queue_wiring :
    worker_job_queue = unsub_job_queue ∧ worker_job_queue ≠ filtered_queue := by
  exact ⟨rfl, by decide⟩

/-- C2: the first payload a fresh worker process pops that is not valid JSON
crashes the consume loop: `json.loads` raises, the `except Exception`
handler reads the not-yet-assigned local `data`, and the resulting
`UnboundLocalError` escapes the loop instead of being counted and
contained. -/
theorem C2_worker_crash_on_first_invalid_json :
    workerStep [c3_cfg] c3_env none none
      = .error "UnboundLocalError: local variable data referenced before assignment" := by
  rfl

/-- C3 counterexample: on a 550 transport failure the delivery engine pushes
the job to the failed queue with `retries` changed from 0 to 1, so a stage
other than the Retry Engine does modify `retries` before pushing onward. -/
theorem C3_worker_increments_retries_counterexample :
    lookupField c3_job "retries" = some (Val.num 0)
    ∧ workerStep [c3_cfg] c3_env none (some c3_job)
      = .ok ⟨[(failed_queue, setField c3_job "retries" (Val.num 1)),
          (bounced_queue, c3_job ++ [("error", Val.str "mailbox unavailable"),
            ("smtp_code", Val.num 550)])],
          some (setField c3_job "retries" (Val.num 1))⟩
    ∧ lookupField (setField c3_job "retries" (Val.num 1)) "retries"
        = some (Val.num 1) := by
  refine ⟨by decide, by rfl, by decide⟩

/-- C8: endpoint selection draws only among configured endpoints whose host
is not blacklisted, each with probability weight over the candidate total; a
candidate list left empty raises, and the worker routes the job to the
failed queue; with endpoints A (weight 3) and B (weight 1) and B
blacklisted, A is selected with probability 1. -/
theorem C8_weighted_selection :
    (∀ (configs : List SmtpConfig) (bl : List String) (dist : List (SmtpConfig × ℚ))
        (c : SmtpConfig) (p : ℚ),
        select_smtp_dist configs bl = .ok dist → (c, p) ∈ dist →
        c ∈ configs ∧ bl.contains c.host = false
          ∧ p = getWeight c / ((select_candidates configs bl).map Prod.snd).sum)
    ∧ (∀ (configs : List SmtpConfig) (bl : List String),
        select_candidates configs bl = [] →
        select_smtp_dist configs bl = .error "No valid SMTP configurations available")
    ∧ select_smtp_dist
        [⟨"A", "hostA", 25, some 3, none, none⟩, ⟨"B", "hostB", 25, some 1, none, none⟩]
        ["hostB"]
      = .ok [(⟨"A", "hostA", 25, some 3, none, none⟩, 1)]
    ∧ (∀ (configs : List SmtpConfig) (env : WorkerEnv) (prev : Option Job)
        (data d' : Job),
        select_candidates configs env.blacklisted_ips = [] →
        workerRequiredFields.all (fun f => hasField data f) = true →
        env.rate_count ≤ 100 →
        incRetries data = some d' →
        workerStep configs env prev (some data)
          = .ok ⟨[(failed_queue, d'),
              (bounced_queue,
                d' ++ [("error", Val.str "No valid SMTP configurations available")])],
              some d'⟩) := by
  refine ⟨?_, ?_, ?_, ?_⟩
  · intro configs bl dist c p hok hmem
    simp only [select_smtp_dist] at hok
    split at hok
    · simp at hok
    · rw [Except.ok.injEq] at hok
      rw [← hok] at hmem
      rw [List.mem_map] at hmem
      obtain ⟨⟨c', w⟩, hcw, heq⟩ := hmem
      rw [Prod.mk.injEq] at heq
      obtain ⟨hc, hp⟩ := heq
      subst hc
      simp only [select_candidates, List.mem_map, List.mem_filter] at hcw
      obtain ⟨c'', ⟨hc''mem, hc''bl⟩, heq2⟩ := hcw
      rw [Prod.mk.injEq] at heq2
      obtain ⟨hc2, hw⟩ := heq2
      subst hc2
      refine ⟨hc''mem, ?_, ?_⟩
      · simpa using hc''bl
      · rw [← hp, hw]
  · intro configs bl h
    simp [select_smtp_dist, h]
  · simp +decide [select_smtp_dist, select_candidates, getWeight]
  · intro configs env prev data d' hsel hfields hrate hinc
    have hrate' : ¬ env.rate_count > 100 := by omega
    simp [workerStep, hfields, hrate', select_smtp_dist, hsel, genericHandler, hinc]

/-- C8 witness: the concrete two-endpoint scenario and the empty-candidate
failure route at concrete inputs. -/
theorem C8_weighted_selection_witness :
    select_candidates [c3_cfg] ["smtp1"] = []
    ∧ getRetries c3_job = some 0
    ∧ workerStep [c3_cfg] ⟨["smtp1"], 1, .ok⟩ none (some c3_job)
      = .ok ⟨[(failed_queue, setField c3_job "retries" (Val.num 1)),
          (bounced_queue, setField c3_job "retries" (Val.num 1)
            ++ [("error", Val.str "No valid SMTP configurations available")])],
          some (setField c3_job "retries" (Val.num 1))⟩ := by
  refine ⟨by decide, by decide, ?_⟩
  exact C8_weighted_selection.2.2.2 [c3_cfg] ⟨["smtp1"], 1, .ok⟩ none c3_job
    (setField c3_job "retries" (Val.num 1)) (by decide) (by decide) (by decide)
    (by decide)

end SMTP

namespace SMTP

/-- Updating one key leaves every other key's lookup unchanged. -/
theorem lookup_setField_ne (d : Job) (k k' : String) (v : Val) (h : k' ≠ k) :
    lookupField (setField d k v) k' = lookupField d k' := by
  induction d with
  | nil => simp [setField, lookupField, Ne.symm h]
  | cons a rest ih =>
    obtain ⟨ak, av⟩ := a
    by_cases hak : ak = k
    · subst hak
      simp [setField, lookupField, Ne.symm h]
    · by_cases hak' : ak = k'
      · subst hak'
        simp [setField, hak, lookupField]
      · simp [setField, hak, lookupField, hak', ih]

namespace Unsub

/-- The `valid_recipients` list computed by unsubscribe.py's consume loop:
recipients passing address validation (`validate_email`, modelled as the
predicate `valid_email` since it is an external library call) and not present
in the unsubscribe set. -/
def surviving_recipients (valid_email : String → Bool) (unsub : List String)
    (tos : List String) : List String :=
  tos.filter (fun e => valid_email e && !unsub.contains e)

/-- `valid_recipients if len(valid_recipients) > 1 else valid_recipients[0]`:
the rewritten `to` value (only evaluated on a non-empty list). -/
def collapse_to (l : List String) : Val :=
  if l.length > 1 then Val.listStr l else Val.str l.headI

/-- Observable outcome of one job-processing iteration of unsubscribe.py:
`jsonError` = `unsubscribe_metrics:json_errors` (no forward), `missingTo` =
`unsubscribe_metrics:invalid_jobs` (no forward), `typeError` = the generic
exception handler (a non-string, non-list `to` makes `validate_email` raise
outside `EmailNotValidError`), `forwarded` = push of the rewritten job to the
filtered queue (`unsubscribe_metrics:processed`), `droppedAllUnsubscribed` =
terminal drop counted by `unsubscribe_metrics:skipped_jobs`. -/
inductive UnsubOutcome where
  | jsonError
  | missingTo
  | typeError
  | forwarded (data : Job)
  | droppedAllUnsubscribed
deriving DecidableEq, Repr

/-- The filter-and-forward tail of the loop body, after `to` has been
normalized to a list of addresses. -/
def processRecipients (valid_email : String → Bool) (unsub : List String)
    (data : Job) (tos : List String) : UnsubOutcome :=
  let valid_recipients := surviving_recipients valid_email unsub tos
  if valid_recipients ≠ [] then
    .forwarded (setField data "to" (collapse_to valid_recipients))
  else
    .droppedAllUnsubscribed

/-- `data["to"] if isinstance(data["to"], list) else [data["to"]]` for the
payload shapes that reach the recipient loop without raising. -/
def getToRecipients (data : Job) : Option (List String) :=
  match lookupField data "to" with
  | some (Val.str s) => some [s]
  | some (Val.listStr l) => some l
  | _ => none

/-- One iteration of unsubscribe.py's job-processing loop on a popped
payload (`none` = `json.JSONDecodeError`, which this stage catches). -/
def unsubStep (valid_email : String → Bool) (unsub : List String)
    (parsed : Option Job) : UnsubOutcome :=
  match parsed with
  | none => .jsonError
  | some data =>
    match lookupField data "to" with
    | none => .missingTo
    | some (Val.str s) => processRecipients valid_email unsub data [s]
    | some (Val.listStr l) => processRecipients valid_email unsub data l
    | some (Val.num _) => .typeError

/-- Concrete job with one subscribed and one unsubscribed recipient. -/
def c7_job : Job :=
  [("job_id", Val.str "j2"), ("from", Val.str "a@x.com"),
   ("to", Val.listStr ["b@y.com", "u@y.com"]), ("subject", Val.str "hi"),
   ("body", Val.str "hello")]

end Unsub

end SMTP

namespace SMTP

open Unsub

/-- C7: for a consumed job whose `to` yields the recipient list `tos`, if at
least one recipient is syntactically valid and not unsubscribed the filter
forwards the job with `to` rewritten to exactly the surviving recipients
(collapsed to a single string value when exactly one survives); if no
recipient survives, nothing is forwarded and the terminal drop is counted. -/
theorem C7_unsub_forwarding (ve : String → Bool) (unsub : List String)
    (data : Job) (tos : List String) (ht : getToRecipients data = some tos) :
    (surviving_recipients ve unsub tos ≠ [] →
      unsubStep ve unsub (some data)
        = .forwarded (setField data "to"
            (collapse_to (surviving_recipients ve unsub tos))))
    ∧ (surviving_recipients ve unsub tos = [] →
      unsubStep ve unsub (some data) = .droppedAllUnsubscribed)
    ∧ (∀ r : String, collapse_to [r] = Val.str r) := by
  rcases hl : lookupField data "to" with _ | v
  · simp [getToRecipients, hl] at ht
  · rcases v with s | n | l
    · simp only [getToRecipients, hl, Option.some.injEq] at ht
      subst ht
      refine ⟨?_, ?_, ?_⟩
      · intro hne
        simp [unsubStep, hl, processRecipients, hne]
      · intro he
        simp [unsubStep, hl, processRecipients, he]
      · intro r
        simp [collapse_to]
    · simp [getToRecipients, hl] at ht
    · simp only [getToRecipients, hl, Option.some.injEq] at ht
      subst ht
      refine ⟨?_, ?_, ?_⟩
      · intro hne
        simp [unsubStep, hl, processRecipients, hne]
      · intro he
        simp [unsubStep, hl, processRecipients, he]
      · intro r
        simp [collapse_to]

/-- C7 witness: a two-recipient job with one unsubscribed recipient is
forwarded with `to` collapsed to the single survivor. -/
theorem C7_unsub_forwarding_witness :
    getToRecipients c7_job = some ["b@y.com", "u@y.com"]
    ∧ surviving_recipients (fun _ => true) ["u@y.com"]
        ["b@y.com", "u@y.com"] = ["b@y.com"]
    ∧ unsubStep (fun _ => true) ["u@y.com"] (some c7_job)
      = .forwarded (setField c7_job "to"
          (collapse_to (surviving_recipients (fun _ => true)
            ["u@y.com"] ["b@y.com", "u@y.com"]))) := by
  refine ⟨by decide, by decide, ?_⟩
  exact (C7_unsub_forwarding (fun _ => true) ["u@y.com"] c7_job
    ["b@y.com", "u@y.com"] (by decide)).1 (by decide)

/-- C10: every job the filter forwards agrees with the dequeued job on every
field other than `to`: only `to` is rewritten. -/
theorem C10_frame_preservation (ve : String → Bool) (unsub : List String)
    (data data' : Job) (h : unsubStep ve unsub (some data) = .forwarded data')
    (k : String) (hk : k ≠ "to") :
    lookupField data' k = lookupField data k := by
  rcases hl : lookupField data "to" with _ | v
  · simp [unsubStep, hl] at h
  · rcases v with s | n | l
    · simp only [unsubStep, hl, processRecipients] at h
      split at h
      · rw [UnsubOutcome.forwarded.injEq] at h
        rw [← h]
        exact lookup_setField_ne data "to" k _ hk
      · simp at h
    · simp [unsubStep, hl] at h
    · simp only [unsubStep, hl, processRecipients] at h
      split at h
      · rw [UnsubOutcome.forwarded.injEq] at h
        rw [← h]
        exact lookup_setField_ne data "to" k _ hk
      · simp at h

/-- C10 witness: the forwarded version of the concrete job agrees with the
original on the `from` field. -/
theorem C10_frame_preservation_witness :
    unsubStep (fun _ => true) ["u@y.com"] (some c7_job)
      = .forwarded (setField c7_job "to" (Val.str "b@y.com"))
    ∧ lookupField (setField c7_job "to" (Val.str "b@y.com")) "from"
        = lookupField c7_job "from" := by
  refine ⟨by decide, ?_⟩
  exact C10_frame_preservation (fun _ => true) ["u@y.com"] c7_job
    (setField c7_job "to" (Val.str "b@y.com")) (by decide) "from" (by decide)

end SMTP

namespace SMTP

namespace IpRep

/-- Aggregate result of one reputation check: per configured blacklist zone,
the list of DNS answer addresses (empty = not listed, including NXDOMAIN and
resolver errors, which the code treats as not listed). -/
abbrev BlacklistResults := List (String × List String)

/-- `'.'.join(reversed(ip.split('.')))`. -/
def reverse_octets (ip : String) : String :=
  String.intercalate "." (ip.splitOn ".").reverse

/-- `is_blacklisted` from check_spamhaus_notify.py. The module never imports
`json`, so both paths raise `NameError` before returning an aggregate: a
cache hit evaluates `json.loads(cached_result)` (line 52), and a cache miss
performs the reverse-octet DNS queries, building `results`, and then
evaluates `json.dumps(results)` inside the `r.setex` call that precedes the
return (line 71). `dns` is the external resolver: its answer list for a
query, already empty for NXDOMAIN or resolver errors. -/
def is_blacklisted (cache : Option BlacklistResults)
    (dns : String → List String) (ip : String) (blacklists : List String) :
    Except String BlacklistResults :=
  match cache with
  | some _cached => .error "NameError: name json is not defined"
  | none =>
    let _results := blacklists.map (fun b => (b, dns (reverse_octets ip ++ "." ++ b)))
    .error "NameError: name json is not defined"

/-- `any(result for result in blacklist_results.values())`: some blacklist
returned a non-empty answer list. -/
def is_listed (results : BlacklistResults) : Bool :=
  results.any (fun p => !p.2.isEmpty)

/-- Redis `SADD` on a set modelled as a duplicate-free list. -/
def sadd (s : List String) (x : String) : List String :=
  if x ∈ s then s else s ++ [x]

/-- Redis `SREM`. -/
def srem (s : List String) (x : String) : List String :=
  s.filter (fun y => y ≠ x)

/-- Lines 127-131 of the per-IP body: `sadd` into `blacklisted_ips` when
listed, `srem` when clean. Reachable only if `is_blacklisted` returns an
aggregate. -/
def update_blacklist_set (s : List String) (ip : String)
    (results : BlacklistResults) : List String :=
  if is_listed results then sadd s ip else srem s ip

/-- The per-IP `try` body of the monitoring loop: when `is_blacklisted`
raises, the `except Exception` handler counts the error
(`ip_reputation_metrics:unexpected_errors`) and the set is left untouched;
only a returned aggregate reaches the set update (and the alert path, not
modelled further). -/
def process_ip (s : List String) (ip : String)
    (check : Except String BlacklistResults) : List String :=
  match check with
  | .error _ => s
  | .ok results => update_blacklist_set s ip results

/-- One full monitoring cycle over the loaded candidate IPs, with `cache`
the per-IP cached aggregate and `dns` the external resolver. -/
def monitor_cycle (s : List String) (cache : String → Option BlacklistResults)
    (dns : String → List String) (ips blacklists : List String) : List String :=
  ips.foldl
    (fun acc ip => process_ip acc ip (is_blacklisted (cache ip) dns ip blacklists)) s

end IpRep

end SMTP

namespace SMTP

open IpRep

/-- C5: the claimed add/remove behavior never happens. `is_blacklisted`
raises `NameError` on every call — the module never imports `json`, a cache
hit fails at `json.loads` and a cache miss at `json.dumps` before the
return — and the per-IP handler swallows the error, so a monitoring cycle
leaves the `blacklisted_ips` set exactly as it found it, whatever the
configured blacklists would have answered. -/
theorem C5_monitor_never_updates_set :
    (∀ (cache : Option IpRep.BlacklistResults) (dns : String → List String)
        (ip : String) (blacklists : List String),
      is_blacklisted cache dns ip blacklists
        = .error "NameError: name json is not defined")
    ∧ (∀ (s : List String) (cache : String → Option IpRep.BlacklistResults)
        (dns : String → List String) (ips blacklists : List String),
      monitor_cycle s cache dns ips blacklists = s) := by
  have herr : ∀ (cache : Option IpRep.BlacklistResults)
      (dns : String → List String) (ip : String) (blacklists : List String),
      is_blacklisted cache dns ip blacklists
        = .error "NameError: name json is not defined" := by
    intro cache dns ip blacklists
    cases cache <;> rfl
  refine ⟨herr, ?_⟩
  intro s cache dns ips blacklists
  induction ips generalizing s with
  | nil => rfl
  | cons a rest ih =>
    have hstep : monitor_cycle s cache dns (a :: rest) blacklists
        = monitor_cycle (process_ip s a (is_blacklisted (cache a) dns a blacklists))
            cache dns rest blacklists := rfl
    rw [hstep, herr (cache a) dns a blacklists]
    exact ih _

end SMTP

namespace SMTP

namespace Gateway

/-- `validate_job` from gateway.py: all of from, to, subject, body present. -/
def gateway_required_fields : List String := ["from", "to", "subject", "body"]

/-- `validate_job(data)` in gateway.py. -/
def validate_job (data : Job) : Bool :=
  gateway_required_fields.all (fun f => hasField data f)

/-- Python truthiness for the payload values, as used by
`if template_id:`. -/
def isTruthy : Val → Bool
  | .str s => !(s == "")
  | .num n => !(n == 0)
  | .listStr l => !l.isEmpty

/-- Python `str()` of a payload value, used only to form the template cache
key (string ids in practice; the list rendering is an approximation, and the
template table is abstract anyway). -/
def valToKeyStr : Val → String
  | .str s => s
  | .num n => toString n
  | .listStr l => String.intercalate ", " l

/-- `data["to"] if isinstance(data["to"], list) else [data["to"]]` as the
values the unsubscribe membership test iterates over. -/
def toAddressVals (data : Job) : List Val :=
  match lookupField data "to" with
  | some (Val.listStr l) => l.map Val.str
  | some v => [v]
  | none => []

/-- `any(email in unsub_list for email in to_addresses)`: only string
recipients can match the set of unsubscribed addresses. -/
def anyUnsubscribed (unsub : List String) (data : Job) : Bool :=
  (toAddressVals data).any (fun v =>
    match v with
    | Val.str s => unsub.contains s
    | _ => false)

/-- External state one `/send` request observes: the JWT verdict (token
present and valid), the Redis sets, the value `r.incr(rate_key)` returned,
and the template table `r.get("template:...")`. -/
structure GatewayEnv where
  auth_ok : Bool
  unsubscribed_emails : List String
  blacklisted_ips : List String
  rate_count : Int
  templates : String → Option String

/-- HTTP outcome of `/send`: a rejection (status code and error body) or
acceptance, carrying the job pushed to the gateway job queue. -/
inductive GwResult where
  | reject (status : Nat) (error : String)
  | queued (job : Job)
deriving DecidableEq, Repr

/-- The fields stamped on an accepted job before it is enqueued:
`job_id`, `submitted_at` (time at integer resolution), `client_ip`. -/
def finalize (d : Job) (job_id : String) (now : Int) (client_ip : String) : Job :=
  setField (setField (setField d "job_id" (Val.str job_id))
    "submitted_at" (Val.num now)) "client_ip" (Val.str client_ip)

/-- The `/send` handler of gateway.py behind `require_jwt`, for one request:
`data` is `request.json` (`none` = unparsable body; an empty object is also
falsy and rejected by `if not data:`). The second component records whether
`r.expire(rate_key, 3600)` was called (exactly when the incremented counter
returned 1). `fmt` is `str.format` over the template with `template_data`
(`none` = a `KeyError` on an undefined placeholder, which the generic
handler turns into a 500). -/
def gatewaySend (env : GatewayEnv) (fmt : String → Option Val → Option String)
    (client_ip : String) (new_job_id : String) (now : Int)
    (data : Option Job) : GwResult × Bool :=
  if !env.auth_ok then (.reject 401 "Invalid token", false)
  else
    match data with
    | none => (.reject 400 "Invalid JSON", false)
    | some d =>
      if d = [] then (.reject 400 "Invalid JSON", false)
      else if !validate_job d then (.reject 400 "Missing required fields", false)
      else if anyUnsubscribed env.unsubscribed_emails d then
        (.reject 400 "Recipient unsubscribed", false)
      else if env.blacklisted_ips.contains client_ip then
        (.reject 403 "Client IP blacklisted", false)
      else
        let expired := env.rate_count == 1
        if env.rate_count > 100 then (.reject 429 "Rate limit exceeded", expired)
        else
          match lookupField d "template_id" with
          | some tid =>
            if isTruthy tid then
              match env.templates ("template:" ++ valToKeyStr tid) with
              | none => (.reject 404 "Template not found", expired)
              | some tpl =>
                if tpl == "" then (.reject 404 "Template not found", expired)
                else
                  match fmt tpl (lookupField d "template_data") with
                  | none => (.reject 500 "Internal server error", expired)
                  | some body' =>
                    (.queued (finalize (setField d "body" (Val.str body'))
                      new_job_id now client_ip), expired)
            else (.queued (finalize d new_job_id now client_ip), expired)
          | none => (.queued (finalize d new_job_id now client_ip), expired)

/-- Concrete environment over the rate-limit threshold. -/
def c6_env : GatewayEnv := ⟨true, ["u@y.com"], [], 150, fun _ => none⟩

/-- Concrete well-formed request payload. -/
def c6_job : Job :=
  [("from", Val.str "a@x.com"), ("to", Val.str "b@y.com"),
   ("subject", Val.str "hi"), ("body", Val.str "hello")]

end Gateway

end SMTP

namespace SMTP

open Gateway

/-- C6: the admission checks run in the fixed order auth, required fields,
recipient-unsubscribed, client-IP-blacklisted, rate limit, template
lookup/substitution, short-circuiting at the first failure (each rejection
below needs no assumption about the later checks); once the flow reaches the
rate limiter, the rate key receives its 3600-second expiry exactly when the
incremented counter returned 1, and the request is rejected as rate-limited
exactly when that counter exceeds 100. -/
theorem C6_gateway_validation_order (env : GatewayEnv)
    (fmt : String → Option Val → Option String) (ip jid : String) (now : Int) :
    (∀ d, env.auth_ok = false →
      gatewaySend env fmt ip jid now d = (.reject 401 "Invalid token", false))
    ∧ (∀ d : Job, env.auth_ok = true → d ≠ [] → validate_job d = false →
      gatewaySend env fmt ip jid now (some d)
        = (.reject 400 "Missing required fields", false))
    ∧ (∀ d : Job, env.auth_ok = true → d ≠ [] → validate_job d = true →
        anyUnsubscribed env.unsubscribed_emails d = true →
      gatewaySend env fmt ip jid now (some d)
        = (.reject 400 "Recipient unsubscribed", false))
    ∧ (∀ d : Job, env.auth_ok = true → d ≠ [] → validate_job d = true →
        anyUnsubscribed env.unsubscribed_emails d = false →
        env.blacklisted_ips.contains ip = true →
      gatewaySend env fmt ip jid now (some d)
        = (.reject 403 "Client IP blacklisted", false))
    ∧ (∀ d : Job, env.auth_ok = true → d ≠ [] → validate_job d = true →
        anyUnsubscribed env.unsubscribed_emails d = false →
        env.blacklisted_ips.contains ip = false →
        (gatewaySend env fmt ip jid now (some d)).2 = (env.rate_count == 1)
        ∧ ((gatewaySend env fmt ip jid now (some d)).1
            = .reject 429 "Rate limit exceeded" ↔ env.rate_count > 100))
    ∧ (∀ (d : Job) (tid : Val), env.auth_ok = true → d ≠ [] →
        validate_job d = true →
        anyUnsubscribed env.unsubscribed_emails d = false →
        env.blacklisted_ips.contains ip = false →
        ¬ env.rate_count > 100 →
        lookupField d "template_id" = some tid → isTruthy tid = true →
        env.templates ("template:" ++ valToKeyStr tid) = none →
      gatewaySend env fmt ip jid now (some d)
        = (.reject 404 "Template not found", env.rate_count == 1))
    ∧ (∀ d : Job, env.auth_ok = true → d ≠ [] → validate_job d = true →
        anyUnsubscribed env.unsubscribed_emails d = false →
        env.blacklisted_ips.contains ip = false →
        ¬ env.rate_count > 100 →
        lookupField d "template_id" = none →
      gatewaySend env fmt ip jid now (some d)
        = (.queued (finalize d jid now ip), env.rate_count == 1)) := by
  refine ⟨?_, ?_, ?_, ?_, ?_, ?_, ?_⟩
  · intro d hauth
    simp [gatewaySend, hauth]
  · intro d hauth hne hv
    simp [gatewaySend, hauth, hne, hv]
  · intro d hauth hne hv hun
    simp [gatewaySend, hauth, hne, hv, hun]
  · intro d hauth hne hv hun hbl
    have hbl' : ip ∈ env.blacklisted_ips := by simpa using hbl
    simp [gatewaySend, hauth, hne, hv, hun, hbl']
  · intro d hauth hne hv hun hbl
    have hbl' : ip ∉ env.blacklisted_ips := by simpa using hbl
    by_cases hc : env.rate_count > 100
    · simp [gatewaySend, hauth, hne, hv, hun, hbl', hc]
    · rcases htid : lookupField d "template_id" with _ | tid
      · simp [gatewaySend, hauth, hne, hv, hun, hbl', hc, htid]
      · by_cases htr : isTruthy tid = true
        · rcases htpl : env.templates ("template:" ++ valToKeyStr tid) with _ | tpl
          · simp [gatewaySend, hauth, hne, hv, hun, hbl', hc, htid, htr, htpl]
          · by_cases hemp : (tpl == "") = true
            · simp [gatewaySend, hauth, hne, hv, hun, hbl', hc, htid, htr, htpl, hemp]
            · rcases hfmt : fmt tpl (lookupField d "template_data") with _ | body
              · simp [gatewaySend, hauth, hne, hv, hun, hbl', hc, htid, htr, htpl,
                  hemp, hfmt]
              · simp [gatewaySend, hauth, hne, hv, hun, hbl', hc, htid, htr, htpl,
                  hemp, hfmt]
        · rw [Bool.not_eq_true] at htr
          simp [gatewaySend, hauth, hne, hv, hun, hbl', hc, htid, htr]
  · intro d tid hauth hne hv hun hbl hc htid htr htpl
    have hbl' : ip ∉ env.blacklisted_ips := by simpa using hbl
    simp [gatewaySend, hauth, hne, hv, hun, hbl', hc, htid, htr, htpl]
  · intro d hauth hne hv hun hbl hc htid
    have hbl' : ip ∉ env.blacklisted_ips := by simpa using hbl
    simp [gatewaySend, hauth, hne, hv, hun, hbl', hc, htid]

/-- C6 witness: a well-formed authenticated request whose incremented per-IP
counter is 150 is rejected as rate-limited. -/
theorem C6_gateway_validation_order_witness :
    (150 : Int) > 100
    ∧ (gatewaySend c6_env (fun _ _ => none) "9.9.9.9" "id1" 0 (some c6_job)).1
        = .reject 429 "Rate limit exceeded" := by
  refine ⟨by decide, ?_⟩
  have h := (C6_gateway_validation_order c6_env (fun _ _ => none) "9.9.9.9" "id1" 0
    ).2.2.2.2.1 c6_job (by decide) (by decide) (by decide) (by decide) (by decide)
  exact h.2.mpr (by decide)

end SMTP

namespace SMTP

open Worker

open Gateway

open Unsub

/-- Looking up any key other than the three admission-stamped fields in a
finalized job gives the lookup in the underlying payload. -/
theorem lookup_finalize_ne (d : Job) (jid : String) (now : Int) (ip k : String)
    (h1 : k ≠ "job_id") (h2 : k ≠ "submitted_at") (h3 : k ≠ "client_ip") :
    lookupField (finalize d jid now ip) k = lookupField d k := by
  unfold finalize
  rw [lookup_setField_ne _ _ _ _ h3, lookup_setField_ne _ _ _ _ h2,
    lookup_setField_ne _ _ _ _ h1]

/-- Every job the filter forwards is the dequeued job with only `to`
reassigned. -/
theorem unsub_forwarded_eq (ve : String → Bool) (unsub : List String)
    (data data' : Job) (h : unsubStep ve unsub (some data) = .forwarded data') :
    ∃ v, data' = setField data "to" v := by
  rcases hl : lookupField data "to" with _ | v
  · simp [unsubStep, hl] at h
  · rcases v with s | n | l
    · simp only [unsubStep, hl, processRecipients] at h
      split at h
      · rw [UnsubOutcome.forwarded.injEq] at h
        exact ⟨_, h.symm⟩
      · simp at h
    · simp [unsubStep, hl] at h
    · simp only [unsubStep, hl, processRecipients] at h
      split at h
      · rw [UnsubOutcome.forwarded.injEq] at h
        exact ⟨_, h.symm⟩
      · simp at h

/-- A request the gateway accepts carries every payload field other than
`body` (template substitution target) and the three admission stamps
unchanged into the enqueued job. -/
theorem gateway_queued_frame (env : GatewayEnv)
    (fmt : String → Option Val → Option String) (ip jid : String) (now : Int)
    (d j : Job) (e : Bool) (k : String)
    (h : gatewaySend env fmt ip jid now (some d) = (.queued j, e))
    (h1 : k ≠ "job_id") (h2 : k ≠ "submitted_at") (h3 : k ≠ "client_ip")
    (h4 : k ≠ "body") :
    lookupField j k = lookupField d k := by
  cases hauth : env.auth_ok with
  | false => simp [gatewaySend, hauth] at h
  | true =>
    by_cases hne : d = []
    · simp [gatewaySend, hauth, hne] at h
    · by_cases hv : validate_job d = true
      · by_cases hun : anyUnsubscribed env.unsubscribed_emails d = true
        · simp [gatewaySend, hauth, hne, hv, hun] at h
        · rw [Bool.not_eq_true] at hun
          by_cases hbl : ip ∈ env.blacklisted_ips
          · simp [gatewaySend, hauth, hne, hv, hun, hbl] at h
          · by_cases hc : env.rate_count > 100
            · simp [gatewaySend, hauth, hne, hv, hun, hbl, hc] at h
            · rcases htid : lookupField d "template_id" with _ | tid
              · simp [gatewaySend, hauth, hne, hv, hun, hbl, hc, htid] at h
                rw [← h.1]
                exact lookup_finalize_ne d jid now ip k h1 h2 h3
              · by_cases htr : isTruthy tid = true
                · rcases htpl : env.templates ("template:" ++ valToKeyStr tid)
                    with _ | tpl
                  · simp [gatewaySend, hauth, hne, hv, hun, hbl, hc, htid, htr,
                      htpl] at h
                  · by_cases hemp : (tpl == "") = true
                    · simp [gatewaySend, hauth, hne, hv, hun, hbl, hc, htid, htr,
                        htpl, hemp] at h
                    · rcases hfmt : fmt tpl (lookupField d "template_data")
                        with _ | body
                      · simp [gatewaySend, hauth, hne, hv, hun, hbl, hc, htid,
                          htr, htpl, hemp, hfmt] at h
                      · simp [gatewaySend, hauth, hne, hv, hun, hbl, hc, htid,
                          htr, htpl, hemp, hfmt] at h
                        rw [← h.1]
                        rw [lookup_finalize_ne _ jid now ip k h1 h2 h3]
                        exact lookup_setField_ne d "body" k _ h4
                · rw [Bool.not_eq_true] at htr
                  simp [gatewaySend, hauth, hne, hv, hun, hbl, hc, htid, htr] at h
                  rw [← h.1]
                  exact lookup_finalize_ne d jid now ip k h1 h2 h3
      · rw [Bool.not_eq_true] at hv
        simp [gatewaySend, hauth, hne, hv] at h

/-- C3 amended: `retries` reads as 0 when absent and is incremented at
exactly two sites. Positively: the Retry Engine increments it when
re-queuing a job below the ceiling, and the Delivery Engine increments it in
its failure handlers (here: a transport response error) before the
failed-queue push. Exclusively: the Retry Engine's dead-letter push, the
worker's delivered, malformed and rate-limited pushes, the job the gateway
enqueues on acceptance, and the job the filter forwards all carry `retries`
unchanged. -/
theorem C3_retries_increment_sites (data : Job) (n : Int)
    (hr : getRetries data = some n) :
    (∀ (mr : Int) (b M : ℚ), Retry.validate_job data = true → n < mr →
      Retry.retryStep mr b M (some data)
        = .retryAfter (Retry.calculate_backoff n b M)
            (setField data "retries" (Val.num (n + 1))))
    ∧ (∀ (mr : Int) (b M : ℚ), Retry.validate_job data = true → ¬ n < mr →
      Retry.retryStep mr b M (some data) = .deadLetter data)
    ∧ (∀ (configs : List SmtpConfig) (env : WorkerEnv) (prev : Option Job)
          (code : Int) (m : String),
        workerRequiredFields.all (fun f => hasField data f) = true →
        env.rate_count ≤ 100 →
        select_candidates configs env.blacklisted_ips ≠ [] →
        buildRaises data = false →
        env.smtp = .respErr code m →
        workerStep configs env prev (some data)
          = .ok ⟨[(failed_queue, setField data "retries" (Val.num (n + 1))),
              (bounced_queue,
                data ++ [("error", Val.str m), ("smtp_code", Val.num code)])],
              some (setField data "retries" (Val.num (n + 1)))⟩)
    ∧ (∀ (configs : List SmtpConfig) (env : WorkerEnv) (prev : Option Job),
        workerRequiredFields.all (fun f => hasField data f) = true →
        env.rate_count ≤ 100 →
        select_candidates configs env.blacklisted_ips ≠ [] →
        buildRaises data = false →
        env.smtp = .ok →
        workerStep configs env prev (some data)
          = .ok ⟨[(delivered_queue, data)], some data⟩)
    ∧ (∀ (configs : List SmtpConfig) (env : WorkerEnv) (prev : Option Job),
        workerRequiredFields.all (fun f => hasField data f) = false →
        workerStep configs env prev (some data)
          = .ok ⟨[(failed_queue, data)], some data⟩)
    ∧ (∀ (configs : List SmtpConfig) (env : WorkerEnv) (prev : Option Job),
        workerRequiredFields.all (fun f => hasField data f) = true →
        env.rate_count > 100 →
        workerStep configs env prev (some data)
          = .ok ⟨[(failed_queue, data)], some data⟩)
    ∧ (∀ (env : GatewayEnv) (fmt : String → Option Val → Option String)
          (ip jid : String) (now : Int) (j : Job) (e : Bool),
        gatewaySend env fmt ip jid now (some data) = (.queued j, e) →
        lookupField j "retries" = lookupField data "retries")
    ∧ (∀ (ve : String → Bool) (unsub : List String) (data' : Job),
        unsubStep ve unsub (some data) = .forwarded data' →
        lookupField data' "retries" = lookupField data "retries") := by
  refine ⟨?_, ?_, ?_, ?_, ?_, ?_, ?_, ?_⟩
  · intro mr b M hv hlt
    simp [Retry.retryStep, hv, hr, hlt]
  · intro mr b M hv hge
    simp [Retry.retryStep, hv, hr, hge]
  · intro configs env prev code m hfields hrate hsel hbuild hsmtp
    have hrate' : ¬ env.rate_count > 100 := by omega
    simp [workerStep, hfields, hrate', select_smtp_dist, hsel, hbuild, hsmtp,
      incRetries, hr]
  · intro configs env prev hfields hrate hsel hbuild hsmtp
    have hrate' : ¬ env.rate_count > 100 := by omega
    simp [workerStep, hfields, hrate', select_smtp_dist, hsel, hbuild, hsmtp]
  · intro configs env prev hfields
    simp [workerStep, hfields]
  · intro configs env prev hfields hc
    simp [workerStep, hfields, hc]
  · intro env fmt ip jid now j e h
    exact gateway_queued_frame env fmt ip jid now data j e "retries" h
      (by decide) (by decide) (by decide) (by decide)
  · intro ve unsub data' h
    obtain ⟨v, hv⟩ := unsub_forwarded_eq ve unsub data data' h
    rw [hv]
    exact lookup_setField_ne data "to" "retries" v (by decide)

/-- C3 amended claim witness: instantiation at the concrete job and
environment, retries 0 incremented to 1 on the failed-queue push. -/
theorem C3_retries_increment_sites_witness :
    getRetries c3_job = some 0
    ∧ workerStep [c3_cfg] c3_env none (some c3_job)
      = .ok ⟨[(failed_queue, setField c3_job "retries" (Val.num 1)),
          (bounced_queue, c3_job ++ [("error", Val.str "mailbox unavailable"),
            ("smtp_code", Val.num 550)])],
          some (setField c3_job "retries" (Val.num 1))⟩ := by
  refine ⟨by decide, ?_⟩
  exact (C3_retries_increment_sites c3_job 0 (by decide)).2.2.1 [c3_cfg] c3_env
    none 550 "mailbox unavailable" (by decide) (by decide) (by decide)
    (by decide) rfl

end SMTP
